import Mathlib

/-!
Shallow embedding of the reservation core of
`Sistema_reserva_recursos_compartidos` (`reservas/models.py`,
`reservas/services.py`, `reservas/views.py`).

The Django ORM state is modelled explicitly: a `Sistema` record carries the
`Recurso`, `Reserva`, `Cliente` and `Evento` tables as lists in insertion
order, a primary-key counter for reservations, and a logical wall clock
(`now`, a Nat tick standing for `timezone.now()`).  Row update via `save()`
becomes an id-directed in-place replacement; `select_for_update().get(...)`
becomes a lookup that fails with `ExcepcionBD.noExiste` (the uncaught
`Recurso.DoesNotExist`), and `@transaction.atomic` rollback is modelled by
returning the error without a new state.
-/

/-- `Recurso.ESTADOS_RECURSO` from `models.py`. -/
inductive EstadoRecurso
  | DISPONIBLE
  | OCUPADO
  | FUERA_SERVICIO
deriving DecidableEq, Repr

/-- `Reserva.ESTADOS_SOLICITUD` from `models.py`. -/
inductive EstadoSolicitud
  | EN_COLA
  | ACTIVA
  | FINALIZADA
  | CANCELADA
  | RECHAZADA
  | EXPIRADA
deriving DecidableEq, Repr

/-- Event kinds written by `services.py` (`tipo_evento` strings). -/
inductive TipoEvento
  | SOLICITUD
  | LIBERACION
  | CONCESION
deriving DecidableEq, Repr, BEq

/-- `Cliente` row: a node of the distributed system. -/
structure Cliente where
  id : Nat
  identificador_externo : String
deriving DecidableEq, Repr

/-- `Recurso` row: shared resource with its own state and current holder. -/
structure Recurso where
  id : Nat
  codigo : String
  estado_recurso : EstadoRecurso
  reserva_actual : Option Nat
deriving DecidableEq, Repr

/-- `Reserva` row: one client's request over one resource, with the Lamport
data.  Timestamps are Nat ticks of the model clock. -/
structure Reserva where
  id : Nat
  recurso_id : Nat
  cliente_id : Nat
  reloj_lamport : Int
  prioridad_id : String
  estado : EstadoSolicitud
  fecha_concesion : Option Nat
  fecha_liberacion : Option Nat
  fecha_creacion : Nat
deriving DecidableEq, Repr

/-- `Evento` row: append-only audit record.  The opaque `datos` JSON payload
is not modelled; the fields the claims mention are. -/
structure Evento where
  reserva_id : Option Nat
  tipo_evento : TipoEvento
  ts_cliente : Option Int
deriving DecidableEq, Repr

/-- The whole database plus the reservation primary-key counter and the
model wall clock. -/
structure Sistema where
  clientes : List Cliente
  recursos : List Recurso
  reservas : List Reserva
  eventos : List Evento
  next_id : Nat
  now : Nat
deriving DecidableEq, Repr

/-- `Recurso.objects.get(id=rid)` (first row with that id, `none` when the
lookup raises `DoesNotExist`). -/
def buscarRecurso (s : Sistema) (rid : Nat) : Option Recurso :=
  s.recursos.find? (fun x => decide (x.id = rid))

/-- `Cliente.objects.get(id=cid)` as used through `get_object_or_404`. -/
def buscarCliente (s : Sistema) (cid : Nat) : Option Cliente :=
  s.clientes.find? (fun x => decide (x.id = cid))

/-- `Reserva.objects.filter(recurso=recurso)`: all reservations of one
resource, any status. -/
def reservasDe (s : Sistema) (rid : Nat) : List Reserva :=
  s.reservas.filter (fun r => decide (r.recurso_id = rid))

/-- Row predicate for `filter(recurso=recurso, estado='ACTIVA')`. -/
def esActivaDe (rid : Nat) (r : Reserva) : Bool :=
  decide (r.recurso_id = rid ∧ r.estado = EstadoSolicitud.ACTIVA)

/-- Row predicate for `filter(recurso=recurso, estado='EN_COLA')`. -/
def esEnColaDe (rid : Nat) (r : Reserva) : Bool :=
  decide (r.recurso_id = rid ∧ r.estado = EstadoSolicitud.EN_COLA)

/-- The ACTIVE reservations of a resource, in table order. -/
def activasDe (s : Sistema) (rid : Nat) : List Reserva :=
  s.reservas.filter (esActivaDe rid)

/-- The QUEUED reservations of a resource, in table order. -/
def enColaDe (s : Sistema) (rid : Nat) : List Reserva :=
  s.reservas.filter (esEnColaDe rid)

/-- `aggregate(Max('reloj_lamport'))['reloj_lamport__max'] or 0` over the
reservations of one resource: `0` when no row exists, otherwise the true
maximum (the Python `or 0` is the identity on integers). -/
def ultimoTs (s : Sistema) (rid : Nat) : Int :=
  match (reservasDe s rid).map (fun r => r.reloj_lamport) with
  | [] => 0
  | t :: ts => ts.foldl max t

/-- The ordering key `(reloj_lamport, prioridad_id)` of a reservation. -/
def clave (r : Reserva) : Int × String :=
  (r.reloj_lamport, r.prioridad_id)

/-- Ascending lexicographic comparison of character lists by code point:
how Python and the database collate the `prioridad_id` strings. -/
def prioridadLt : List Char → List Char → Bool
  | _, [] => false
  | [], _ :: _ => true
  | c :: cs, d :: ds =>
    if c.toNat < d.toNat then true
    else if d.toNat < c.toNat then false
    else prioridadLt cs ds

/-- Strict lexicographic order on `(reloj_lamport, prioridad_id)` pairs:
smaller logical timestamp first, ties broken by ascending string order of
the tie-break key. -/
def claveLt (a b : Int × String) : Prop :=
  a.1 < b.1 ∨ (a.1 = b.1 ∧ prioridadLt a.2.data b.2.data = true)

instance (a b : Int × String) : Decidable (claveLt a b) := by
  unfold claveLt; infer_instance

/-- `queryset.order_by(k).first()` for a strict comparison `mejor r b`
meaning "r sorts strictly before b": a left fold that keeps the earliest
row among those minimal for the ordering (a stable sort's first element). -/
def elegirPrimero (mejor : Reserva → Reserva → Bool) (rs : List Reserva) :
    Option Reserva :=
  rs.foldl (fun acc r =>
    match acc with
    | none => some r
    | some b => if mejor r b then some r else some b) none

/-- `order_by('reloj_lamport', 'prioridad_id').first()`. -/
def primeroMenor (rs : List Reserva) : Option Reserva :=
  elegirPrimero (fun r b => decide (claveLt (clave r) (clave b))) rs

/-- `order_by('-fecha_creacion').first()`: most recently created row. -/
def ultimaCreada (rs : List Reserva) : Option Reserva :=
  elegirPrimero (fun r b => decide (b.fecha_creacion < r.fecha_creacion)) rs

/-- `Reserva.objects.filter(recurso=recurso, cliente=cliente,
estado='ACTIVA').order_by('-fecha_creacion').first()` from
`liberar_reserva`. -/
def activaDelCliente (s : Sistema) (rid cid : Nat) : Option Reserva :=
  ultimaCreada (s.reservas.filter (fun r =>
    decide (r.recurso_id = rid ∧ r.cliente_id = cid ∧
      r.estado = EstadoSolicitud.ACTIVA)))

/-- `reserva.save()`: replace the row with that primary key. -/
def guardarReserva (rs : List Reserva) (r : Reserva) : List Reserva :=
  rs.map (fun x => if x.id = r.id then r else x)

/-- `recurso.save()`: replace the row with that primary key. -/
def guardarRecurso (rs : List Recurso) (rec : Recurso) : List Recurso :=
  rs.map (fun x => if x.id = rec.id then rec else x)

/-- `Recurso.DoesNotExist` raised by `.get(id=...)`. -/
inductive ExcepcionBD
  | noExiste
deriving DecidableEq, Repr

/-- Normal form of the reservation row created by `solicitar_reserva` when
the resource lookup succeeds (the `estado = 'ACTIVA'` tests of the source
are folded into the one `DISPONIBLE` test that decides them). -/
def reservaNueva (s : Sistema) (rec : Recurso) (c : Cliente) (ts : Int) :
    Reserva :=
  { id := s.next_id
    recurso_id := rec.id
    cliente_id := c.id
    reloj_lamport := max ts (ultimoTs s rec.id) + 1
    prioridad_id := c.identificador_externo
    estado :=
      if rec.estado_recurso = EstadoRecurso.DISPONIBLE then
        EstadoSolicitud.ACTIVA
      else EstadoSolicitud.EN_COLA
    fecha_concesion :=
      if rec.estado_recurso = EstadoRecurso.DISPONIBLE then some s.now
      else none
    fecha_liberacion := none
    fecha_creacion := s.now }

/-- Normal form of the resource row saved by `solicitar_reserva`. -/
def recursoTrasSolicitud (s : Sistema) (rec : Recurso) : Recurso :=
  if rec.estado_recurso = EstadoRecurso.DISPONIBLE then
    { rec with
      estado_recurso := EstadoRecurso.OCUPADO
      reserva_actual := some s.next_id }
  else rec

/-- Normal form of the state produced by a successful `solicitar_reserva`. -/
def sistemaTrasSolicitud (s : Sistema) (rec : Recurso) (c : Cliente)
    (ts : Int) : Sistema :=
  { s with
    recursos := guardarRecurso s.recursos (recursoTrasSolicitud s rec)
    reservas := s.reservas ++ [reservaNueva s rec c ts]
    eventos := s.eventos ++
      [{ reserva_id := some s.next_id
         tipo_evento := TipoEvento.SOLICITUD
         ts_cliente := some ts }]
    next_id := s.next_id + 1
    now := s.now + 1 }

/-- The released reservation after `estado = 'FINALIZADA'`. -/
def reservaFinalizada (s : Sistema) (a : Reserva) : Reserva :=
  { a with
    estado := EstadoSolicitud.FINALIZADA
    fecha_liberacion := some s.now }

/-- The promoted reservation after `estado = 'ACTIVA'`. -/
def reservaPromovida (s : Sistema) (q : Reserva) : Reserva :=
  { q with
    estado := EstadoSolicitud.ACTIVA
    fecha_concesion := some s.now }

/-- The queued rows `liberar_reserva` chooses from, read after the released
row was saved as FINALIZADA. -/
def colaTrasLiberar (s : Sistema) (rid : Nat) (a : Reserva) : List Reserva :=
  (guardarReserva s.reservas (reservaFinalizada s a)).filter (esEnColaDe rid)

/-- Normal form of the state after a release that found no queued row. -/
def sistemaLiberadoSin (s : Sistema) (rec : Recurso) (a : Reserva) :
    Sistema :=
  { s with
    recursos := guardarRecurso s.recursos
      { rec with
        estado_recurso := EstadoRecurso.DISPONIBLE
        reserva_actual := none }
    reservas := guardarReserva s.reservas (reservaFinalizada s a)
    eventos := s.eventos ++
      [{ reserva_id := some a.id
         tipo_evento := TipoEvento.LIBERACION
         ts_cliente := none }]
    now := s.now + 1 }

/-- Normal form of the state after a release that promoted the queued row
`q`. -/
def sistemaLiberadoCon (s : Sistema) (rec : Recurso) (a q : Reserva) :
    Sistema :=
  { s with
    recursos := guardarRecurso s.recursos
      { rec with
        estado_recurso := EstadoRecurso.OCUPADO
        reserva_actual := some q.id }
    reservas := guardarReserva (guardarReserva s.reservas
      (reservaFinalizada s a)) (reservaPromovida s q)
    eventos := s.eventos ++
      [{ reserva_id := some a.id
         tipo_evento := TipoEvento.LIBERACION
         ts_cliente := none },
       { reserva_id := some q.id
         tipo_evento := TipoEvento.CONCESION
         ts_cliente := none }]
    now := s.now + 1 }

/-- `GestorRecursos.solicitar_reserva` (`services.py`, lines 23-94), up to
and excluding the notification call, which mutates nothing.  An `error`
result models the uncaught exception propagating out of
`transaction.atomic`, leaving the state as it was. -/
def solicitar_reserva (s : Sistema) (recurso_id : Nat) (cliente : Cliente)
    (ts_cliente : Int) : Except ExcepcionBD (Reserva × Sistema) :=
  match buscarRecurso s recurso_id with
  | none => .error .noExiste
  | some recurso =>
    .ok (reservaNueva s recurso cliente ts_cliente,
      sistemaTrasSolicitud s recurso cliente ts_cliente)

/-- `GestorRecursos.liberar_reserva` (`services.py`, lines 99-178), up to
and excluding the notification call.  Returns `(none, s)` unchanged when
the client holds nothing (the early `return None`). -/
def liberar_reserva (s : Sistema) (recurso_id : Nat) (cliente : Cliente) :
    Except ExcepcionBD (Option Reserva × Sistema) :=
  match buscarRecurso s recurso_id with
  | none => .error .noExiste
  | some recurso =>
    match activaDelCliente s recurso.id cliente.id with
    | none => .ok (none, s)
    | some reservaActiva =>
      match primeroMenor (colaTrasLiberar s recurso.id reservaActiva) with
      | some enCola =>
        .ok (some (reservaFinalizada s reservaActiva),
          sistemaLiberadoCon s recurso reservaActiva enCola)
      | none =>
        .ok (some (reservaFinalizada s reservaActiva),
          sistemaLiberadoSin s recurso reservaActiva)

/-- Environment of `_notificar_cambio_cola`: `get_channel_layer()` may
return `None` (no transport configured), work, or have `group_send` raise
on delivery. -/
inductive Canal
  | ninguno
  | configurado
  | falla
deriving DecidableEq, Repr

/-- `GestorRecursos._notificar_cambio_cola` (`services.py`, 183-204): the
`None` channel layer is handled by an early return; a raising `group_send`
has no handler, so the exception escapes. -/
def notificar_cambio_cola (canal : Canal) : Except Unit Unit :=
  match canal with
  | .ninguno => .ok ()
  | .configurado => .ok ()
  | .falla => .error ()

/-- How a Request/Release operation ends for its caller. -/
inductive ExcepcionOp
  | noExiste
  | fallaNotificacion
deriving DecidableEq, Repr

/-- `solicitar_reserva` including the `_notificar_cambio_cola` call, which
the source places inside the `@transaction.atomic` body (line 92, before
`return`): an exception raised by delivery propagates and the transaction
rolls back, so no new state is produced. -/
def solicitar_reserva_canal (canal : Canal) (s : Sistema) (recurso_id : Nat)
    (cliente : Cliente) (ts_cliente : Int) :
    Except ExcepcionOp (Reserva × Sistema) :=
  match solicitar_reserva s recurso_id cliente ts_cliente with
  | .error _ => .error .noExiste
  | .ok (r, s') =>
    match notificar_cambio_cola canal with
    | .error _ => .error .fallaNotificacion
    | .ok _ => .ok (r, s')

/-- `liberar_reserva` including the notification call (line 176).  The
early `return None` at line 123 happens before the notifier, so that path
never notifies. -/
def liberar_reserva_canal (canal : Canal) (s : Sistema) (recurso_id : Nat)
    (cliente : Cliente) : Except ExcepcionOp (Option Reserva × Sistema) :=
  match liberar_reserva s recurso_id cliente with
  | .error _ => .error .noExiste
  | .ok (none, s') => .ok (none, s')
  | .ok (some r, s') =>
    match notificar_cambio_cola canal with
    | .error _ => .error .fallaNotificacion
    | .ok _ => .ok (some r, s')

/-- HTTP outcome of `solicitar_reserva_api` (`views.py`, 87-118):
`badRequest` is `HttpResponseBadRequest` (missing/falsy `cliente_id`),
`notFoundCliente` is the `Http404` of `get_object_or_404(Cliente, ...)`,
and `errorServidor` is the framework's generic server failure for the
uncaught `Recurso.DoesNotExist` escaping the service. -/
inductive RespSolicitar
  | badRequest
  | notFoundCliente
  | errorServidor
  | ok (reserva_id : Nat) (estado : EstadoSolicitud)
deriving DecidableEq, Repr

/-- `solicitar_reserva_api` (`views.py`, 87-118), for a parsed JSON body:
`cliente_id` absent or `0` is falsy in Python, hence bad request. -/
def solicitar_reserva_api (s : Sistema) (recurso_id : Nat)
    (cliente_id : Option Nat) (ts_cliente : Int) : RespSolicitar × Sistema :=
  match cliente_id with
  | none => (.badRequest, s)
  | some cid =>
    if cid = 0 then (.badRequest, s)
    else
      match buscarCliente s cid with
      | none => (.notFoundCliente, s)
      | some cliente =>
        match solicitar_reserva s recurso_id cliente ts_cliente with
        | .error _ => (.errorServidor, s)
        | .ok (reserva, s') => (.ok reserva.id reserva.estado, s')

/-- HTTP outcome of `liberar_reserva_api` (`views.py`, 121-150). -/
inductive RespLiberar
  | badRequest
  | notFoundCliente
  | errorServidor
  | ok (liberada : Bool)
deriving DecidableEq, Repr

/-- `liberar_reserva_api` (`views.py`, 121-150): answers
`{ok: true, liberada: bool(reserva)}`. -/
def liberar_reserva_api (s : Sistema) (recurso_id : Nat)
    (cliente_id : Option Nat) : RespLiberar × Sistema :=
  match cliente_id with
  | none => (.badRequest, s)
  | some cid =>
    if cid = 0 then (.badRequest, s)
    else
      match buscarCliente s cid with
      | none => (.notFoundCliente, s)
      | some cliente =>
        match liberar_reserva s recurso_id cliente with
        | .error _ => (.errorServidor, s)
        | .ok (resultado, s') => (.ok resultado.isSome, s')

/-- Control-flow milestones of one service call.  `iniciarTransaccion` and
`confirmarTransaccion` are the open/commit of the `@transaction.atomic`
decorator (commit happens when the decorated body returns); the row lock of
`select_for_update` is held from `bloquearRecurso` until
`confirmarTransaccion`. -/
inductive Paso
  | iniciarTransaccion
  | bloquearRecurso
  | mutarEstado
  | registrarEvento
  | notificar
  | confirmarTransaccion
deriving DecidableEq, Repr, BEq

/-- Milestones of `solicitar_reserva` in source order: lock (line 36),
mutations (53-74), event append (77), notification (92), then the
decorator's commit at `return` (94). -/
def pasosSolicitar : List Paso :=
  [.iniciarTransaccion, .bloquearRecurso, .mutarEstado, .registrarEvento,
   .notificar, .confirmarTransaccion]

/-- Milestones of `liberar_reserva` in source order: lock (112), mutations
(126-159), event appends (135, 161), notification (176), commit at
`return` (178). -/
def pasosLiberar : List Paso :=
  [.iniciarTransaccion, .bloquearRecurso, .mutarEstado, .registrarEvento,
   .notificar, .confirmarTransaccion]

/-- A fresh deployment: no reservation rows, and every administratively
created resource starts without a holder and not `OCUPADO` (the model
default is `DISPONIBLE`; `FUERA_SERVICIO` is also allowed). -/
def EstadoInicial (s : Sistema) : Prop :=
  s.reservas = [] ∧
  ∀ rec ∈ s.recursos,
    rec.reserva_actual = none ∧ rec.estado_recurso ≠ EstadoRecurso.OCUPADO

instance (s : Sistema) : Decidable (EstadoInicial s) := by
  unfold EstadoInicial; infer_instance

/-- States reachable by any sequence of successful Request and Release
operations from a fresh deployment. -/
inductive Alcanzable : Sistema → Prop where
  | inicial (s : Sistema) : EstadoInicial s → Alcanzable s
  | solicitar (s s' : Sistema) (rid : Nat) (c : Cliente) (ts : Int)
      (r : Reserva) (hs : Alcanzable s)
      (h : solicitar_reserva s rid c ts = .ok (r, s')) : Alcanzable s'
  | liberar (s s' : Sistema) (rid : Nat) (c : Cliente) (res : Option Reserva)
      (hs : Alcanzable s)
      (h : liberar_reserva s rid c = .ok (res, s')) : Alcanzable s'

/-- Node A. -/
def clienteA : Cliente := { id := 1, identificador_externo := "A" }

/-- Node B. -/
def clienteB : Cliente := { id := 2, identificador_externo := "B" }

/-- An available resource, id 1. -/
def impresora : Recurso :=
  { id := 1
    codigo := "PRINTER1"
    estado_recurso := EstadoRecurso.DISPONIBLE
    reserva_actual := none }

/-- An out-of-service resource, id 2. -/
def taller : Recurso :=
  { id := 2
    codigo := "TALLER"
    estado_recurso := EstadoRecurso.FUERA_SERVICIO
    reserva_actual := none }

/-- A fresh deployment with two clients and two resources. -/
def sistemaNuevo : Sistema :=
  { clientes := [clienteA, clienteB]
    recursos := [impresora, taller]
    reservas := []
    eventos := []
    next_id := 1
    now := 0 }

/-- The spec's ordering scenario: node A holds resource 1, and two queued
requests carry the same logical timestamp 5 with tie-break keys "B"
(created first) and "A" (created second). -/
def sistemaCola : Sistema :=
  { clientes := [clienteA, clienteB]
    recursos :=
      [{ id := 1
         codigo := "PRINTER1"
         estado_recurso := EstadoRecurso.OCUPADO
         reserva_actual := some 1 }]
    reservas :=
      [{ id := 1, recurso_id := 1, cliente_id := 1, reloj_lamport := 1
         prioridad_id := "A", estado := EstadoSolicitud.ACTIVA
         fecha_concesion := some 0, fecha_liberacion := none
         fecha_creacion := 0 },
       { id := 2, recurso_id := 1, cliente_id := 2, reloj_lamport := 5
         prioridad_id := "B", estado := EstadoSolicitud.EN_COLA
         fecha_concesion := none, fecha_liberacion := none
         fecha_creacion := 1 },
       { id := 3, recurso_id := 1, cliente_id := 1, reloj_lamport := 5
         prioridad_id := "A", estado := EstadoSolicitud.EN_COLA
         fecha_concesion := none, fecha_liberacion := none
         fecha_creacion := 2 }]
    eventos := []
    next_id := 4
    now := 3 }

/-- Release of node A's hold on resource 1 in `sistemaCola`. -/
def resultadoLiberarCola : Except ExcepcionBD (Option Reserva × Sistema) :=
  liberar_reserva sistemaCola 1 clienteA

/-- The reservation that release returns in the `sistemaCola` scenario. -/
def reservaLiberadaCola : Reserva :=
  match resultadoLiberarCola with
  | .ok (some r, _) => r
  | _ => reservaFinalizada sistemaCola
      { id := 1, recurso_id := 1, cliente_id := 1, reloj_lamport := 1
        prioridad_id := "A", estado := EstadoSolicitud.ACTIVA
        fecha_concesion := some 0, fecha_liberacion := none
        fecha_creacion := 0 }

/-- The state after the release in the `sistemaCola` scenario. -/
def sistemaColaLiberada : Sistema :=
  match resultadoLiberarCola with
  | .ok (_, t) => t
  | _ => sistemaCola

/-- Node A's first request on the fresh deployment. -/
def resultadoSolicitarNuevo : Except ExcepcionBD (Reserva × Sistema) :=
  solicitar_reserva sistemaNuevo 1 clienteA 0

/-- The reservation created by that request. -/
def reservaSolicitadaNueva : Reserva :=
  match resultadoSolicitarNuevo with
  | .ok (r, _) => r
  | _ => reservaNueva sistemaNuevo impresora clienteA 0

/-- The state after that request. -/
def sistemaTrasSolicitudNueva : Sistema :=
  match resultadoSolicitarNuevo with
  | .ok (_, t) => t
  | _ => sistemaNuevo

/-- The inductive invariant: a `OCUPADO` resource has exactly one ACTIVE
reservation and `reserva_actual` names it; a non-`OCUPADO` resource has no
ACTIVE reservation and no `reserva_actual`; reservation primary keys are
below the counter and pairwise distinct. -/
def InvSistema (s : Sistema) : Prop :=
  (∀ rec ∈ s.recursos,
    (rec.estado_recurso = EstadoRecurso.OCUPADO →
      ∃ a, activasDe s rec.id = [a] ∧ rec.reserva_actual = some a.id) ∧
    (rec.estado_recurso ≠ EstadoRecurso.OCUPADO →
      activasDe s rec.id = [] ∧ rec.reserva_actual = none)) ∧
  (∀ r ∈ s.reservas, r.id < s.next_id) ∧
  (s.reservas.map (fun r => r.id)).Nodup


/-- A successful `get(id=rid)` returns a stored row with that id. -/
lemma buscarRecurso_mem {s : Sistema} {rid : Nat} {rec : Recurso}
    (h : buscarRecurso s rid = some rec) :
    rec ∈ s.recursos ∧ rec.id = rid := by
  refine ⟨List.mem_of_find?_eq_some h, ?_⟩
  have hp := List.find?_some h
  simpa using hp

/-- Rows of a saved resource table: the saved row, or an untouched row with
a different id. -/
lemma mem_guardarRecurso {rs : List Recurso} {rec x : Recurso}
    (hx : x ∈ guardarRecurso rs rec) :
    x = rec ∨ (x ∈ rs ∧ x.id ≠ rec.id) := by
  rcases List.mem_map.mp hx with ⟨y, hy, hxy⟩
  by_cases h : y.id = rec.id
  · left
    rw [if_pos h] at hxy
    exact hxy.symm
  · right
    rw [if_neg h] at hxy
    exact ⟨hxy ▸ hy, hxy ▸ h⟩

/-- Saving a resource commutes with `get`: the found row gets the update
applied. -/
lemma find_guardarRecurso (rs : List Recurso) (rec : Recurso) (rid : Nat) :
    (guardarRecurso rs rec).find? (fun x => decide (x.id = rid)) =
      (rs.find? (fun x => decide (x.id = rid))).map
        (fun x => if x.id = rec.id then rec else x) := by
  induction rs with
  | nil => rfl
  | cons hd t ih =>
    have hupd : (if hd.id = rec.id then rec else hd).id = hd.id := by
      by_cases h : hd.id = rec.id
      · rw [if_pos h, h]
      · rw [if_neg h]
    rw [show guardarRecurso (hd :: t) rec =
        (if hd.id = rec.id then rec else hd) :: guardarRecurso t rec from rfl]
    by_cases hid : hd.id = rid
    · rw [List.find?_cons_of_pos _ (by rw [hupd]; simp [hid]),
        List.find?_cons_of_pos _ (by simp [hid])]
      rfl
    · rw [List.find?_cons_of_neg _ (by rw [hupd]; simp [hid]),
        List.find?_cons_of_neg _ (by simp [hid])]
      exact ih

/-- Shape of a successful request: the returned row and the new state in
normal form. -/
lemma solicitar_ok_forma {s : Sistema} {rid : Nat} {c : Cliente} {ts : Int}
    {r : Reserva} {s' : Sistema}
    (h : solicitar_reserva s rid c ts = .ok (r, s')) :
    ∃ rec, buscarRecurso s rid = some rec ∧
      r = reservaNueva s rec c ts ∧ s' = sistemaTrasSolicitud s rec c ts := by
  unfold solicitar_reserva at h
  cases hrec : buscarRecurso s rid with
  | none => rw [hrec] at h; exact absurd h (by simp)
  | some rec =>
    rw [hrec] at h
    simp only [Except.ok.injEq, Prod.mk.injEq] at h
    exact ⟨rec, rfl, h.1.symm, h.2.symm⟩

/-- Shape of a successful release: either the idempotent no-op, or the
normal form with or without promotion. -/
lemma liberar_ok_forma {s : Sistema} {rid : Nat} {c : Cliente}
    {res : Option Reserva} {s' : Sistema}
    (h : liberar_reserva s rid c = .ok (res, s')) :
    ∃ rec, buscarRecurso s rid = some rec ∧
      ((activaDelCliente s rec.id c.id = none ∧ res = none ∧ s' = s) ∨
       (∃ a, activaDelCliente s rec.id c.id = some a ∧
         res = some (reservaFinalizada s a) ∧
         ((primeroMenor (colaTrasLiberar s rec.id a) = none ∧
            s' = sistemaLiberadoSin s rec a) ∨
          (∃ q, primeroMenor (colaTrasLiberar s rec.id a) = some q ∧
            s' = sistemaLiberadoCon s rec a q)))) := by
  unfold liberar_reserva at h
  split at h
  · exact absurd h (by simp)
  · rename_i rec hrec
    refine ⟨rec, hrec, ?_⟩
    split at h
    · rename_i hact
      simp only [Except.ok.injEq, Prod.mk.injEq] at h
      exact Or.inl ⟨hact, h.1.symm, h.2.symm⟩
    · rename_i a hact
      refine Or.inr ⟨a, hact, ?_⟩
      split at h
      · rename_i q hsig
        simp only [Except.ok.injEq, Prod.mk.injEq] at h
        exact ⟨h.1.symm, Or.inr ⟨q, hsig, h.2.symm⟩⟩
      · rename_i hsig
        simp only [Except.ok.injEq, Prod.mk.injEq] at h
        exact ⟨h.1.symm, Or.inl ⟨hsig, h.2.symm⟩⟩

/-- Saving a reservation leaves the column of primary keys unchanged. -/
lemma map_id_guardarReserva (rs : List Reserva) (r : Reserva) :
    (guardarReserva rs r).map (fun x => x.id) = rs.map (fun x => x.id) := by
  unfold guardarReserva
  rw [List.map_map]
  apply List.map_congr_left
  intro x _
  by_cases h : x.id = r.id
  · simp [h]
  · simp [h]

/-- Saving a reservation whose id is absent from the table is a no-op. -/
lemma guardarReserva_ausente (rs : List Reserva) (r : Reserva)
    (h : ∀ x ∈ rs, x.id ≠ r.id) : guardarReserva rs r = rs := by
  unfold guardarReserva
  conv_rhs => rw [← List.map_id rs]
  apply List.map_congr_left
  intro x hx
  simp [h x hx]

/-- Rows of a saved reservation table: the saved row, or an untouched row
with a different id. -/
lemma mem_guardarReserva {rs : List Reserva} {r x : Reserva}
    (hx : x ∈ guardarReserva rs r) :
    x = r ∨ (x ∈ rs ∧ x.id ≠ r.id) := by
  rcases List.mem_map.mp hx with ⟨y, hy, hxy⟩
  by_cases h : y.id = r.id
  · left
    rw [if_pos h] at hxy
    exact hxy.symm
  · right
    rw [if_neg h] at hxy
    exact ⟨hxy ▸ hy, hxy ▸ h⟩

/-- In a table with pairwise distinct primary keys, equal ids mean equal
rows. -/
lemma id_inj {rs : List Reserva}
    (hnodup : (rs.map (fun x => x.id)).Nodup) {x y : Reserva}
    (hx : x ∈ rs) (hy : y ∈ rs) (hxy : x.id = y.id) : x = y :=
  List.inj_on_of_nodup_map hnodup hx hy hxy

/-- After a save that makes the row fail `p`, no row satisfying `p` is left
when the only rows that satisfied it carried the saved id. -/
lemma filter_guardarReserva_quita (rs : List Reserva) (a' : Reserva)
    (p : Reserva → Bool)
    (hall : ∀ x ∈ rs, p x = true → x.id = a'.id)
    (hna : p a' = false) :
    (guardarReserva rs a').filter p = [] := by
  rw [List.filter_eq_nil_iff]
  intro x hx hpx
  rcases mem_guardarReserva hx with hxa | ⟨hxm, hxid⟩
  · rw [hxa] at hpx
    rw [hna] at hpx
    cases hpx
  · exact hxid (hall x hxm hpx)

/-- Saving a row that fails `p` in place of a row that failed `p` leaves
the `p`-rows untouched. -/
lemma filter_guardarReserva_igual (rs : List Reserva) (r : Reserva)
    (p : Reserva → Bool)
    (hall : ∀ x ∈ rs, x.id = r.id → p x = false) (hr : p r = false) :
    (guardarReserva rs r).filter p = rs.filter p := by
  induction rs with
  | nil => rfl
  | cons hd t ih =>
    rw [show guardarReserva (hd :: t) r =
        (if hd.id = r.id then r else hd) :: guardarReserva t r from rfl]
    have iht := ih (fun x hx hxe => hall x (List.mem_cons_of_mem _ hx) hxe)
    by_cases hh : hd.id = r.id
    · have hphd : p hd = false := hall hd (List.mem_cons_self _ _) hh
      rw [if_pos hh, List.filter_cons, List.filter_cons, hr, hphd]
      simpa using iht
    · rw [if_neg hh, List.filter_cons, List.filter_cons]
      cases hphd : p hd
      · simpa using iht
      · simpa using iht

/-- After promoting the only candidate row, the `p`-rows are exactly the
promoted row: requires that no row satisfied `p` before and that ids are
pairwise distinct. -/
lemma filter_guardarReserva_pone (rs : List Reserva) (q q' : Reserva)
    (p : Reserva → Bool) (hmem : q ∈ rs)
    (hnodup : (rs.map (fun x => x.id)).Nodup)
    (hnone : ∀ x ∈ rs, p x = false)
    (hid : q'.id = q.id) (hq' : p q' = true) :
    (guardarReserva rs q').filter p = [q'] := by
  induction rs with
  | nil => cases hmem
  | cons hd t ih =>
    rw [List.map_cons, List.nodup_cons] at hnodup
    obtain ⟨hhd, hnt⟩ := hnodup
    rw [show guardarReserva (hd :: t) q' =
        (if hd.id = q'.id then q' else hd) :: guardarReserva t q' from rfl]
    by_cases hh : hd.id = q'.id
    · rw [if_pos hh]
      have hguard : guardarReserva t q' = t := by
        apply guardarReserva_ausente
        intro x hx hxe
        exact hhd (List.mem_map.mpr ⟨x, hx, by rw [hxe]; exact hh.symm⟩)
      have hft : t.filter p = [] :=
        List.filter_eq_nil_iff.mpr (fun x hx => by
          simp [hnone x (List.mem_cons_of_mem _ hx)])
      rw [List.filter_cons, hq', hguard, hft]
      simp
    · rw [if_neg hh, List.filter_cons,
        hnone hd (List.mem_cons_self _ _)]
      have hqt : q ∈ t := by
        rcases List.mem_cons.mp hmem with hq | hq
        · exact absurd (hid.trans (by rw [hq])).symm hh
        · exact hq
      simpa using ih hqt hnt (fun x hx => hnone x (List.mem_cons_of_mem _ hx))

/-- Invariant of the fold behind `elegirPrimero`, for a strict comparison
that is transitive and negatively transitive. -/
lemma elegirPrimero_aux (mejor : Reserva → Reserva → Bool)
    (htrans : ∀ a b c, mejor a b = true → mejor b c = true →
      mejor a c = true)
    (hneg : ∀ a b c, mejor a b = false → mejor b c = false →
      mejor a c = false)
    (hirr : ∀ a, mejor a a = false) :
    ∀ (rs : List Reserva) (b x : Reserva),
      rs.foldl (fun acc r =>
        match acc with
        | none => some r
        | some b => if mejor r b then some r else some b) (some b) =
          some x →
      (x = b ∨ x ∈ rs) ∧ mejor b x = false ∧ ∀ r ∈ rs, mejor r x = false := by
  intro rs
  induction rs with
  | nil =>
    intro b x h
    simp only [List.foldl_nil, Option.some.injEq] at h
    subst h
    exact ⟨Or.inl rfl, hirr b, by simp⟩
  | cons r t ih =>
    intro b x h
    rw [List.foldl_cons] at h
    cases hrb : mejor r b with
    | true =>
      rw [show (match some b with
          | none => some r
          | some b => if mejor r b then some r else some b) =
            if mejor r b then some r else some b from rfl,
        hrb, if_pos rfl] at h
      obtain ⟨hmem, hrx, hall⟩ := ih r x h
      refine ⟨Or.inr (by rcases hmem with hm | hm <;> simp [hm]), ?_, ?_⟩
      · cases hbx : mejor b x with
        | true => exact absurd (htrans r b x hrb hbx) (by simp [hrx])
        | false => rfl
      · intro p hp
        rcases List.mem_cons.mp hp with hpr | hpt
        · rw [hpr]; exact hrx
        · exact hall p hpt
    | false =>
      rw [show (match some b with
          | none => some r
          | some b => if mejor r b then some r else some b) =
            if mejor r b then some r else some b from rfl,
        hrb] at h
      simp only [Bool.false_eq_true, if_false] at h
      obtain ⟨hmem, hbx, hall⟩ := ih b x h
      refine ⟨?_, hbx, ?_⟩
      · rcases hmem with hm | hm
        · exact Or.inl hm
        · exact Or.inr (List.mem_cons_of_mem _ hm)
      · intro p hp
        rcases List.mem_cons.mp hp with hpr | hpt
        · rw [hpr]; exact hneg r b x hrb hbx
        · exact hall p hpt

/-- What `order_by(...).first()` returns: a listed row no other row sorts
strictly before. -/
lemma elegirPrimero_spec (mejor : Reserva → Reserva → Bool)
    (htrans : ∀ a b c, mejor a b = true → mejor b c = true →
      mejor a c = true)
    (hneg : ∀ a b c, mejor a b = false → mejor b c = false →
      mejor a c = false)
    (hirr : ∀ a, mejor a a = false)
    (rs : List Reserva) (x : Reserva)
    (h : elegirPrimero mejor rs = some x) :
    x ∈ rs ∧ ∀ r ∈ rs, mejor r x = false := by
  cases rs with
  | nil => cases h
  | cons r t =>
    unfold elegirPrimero at h
    rw [List.foldl_cons] at h
    obtain ⟨hmem, hrx, hall⟩ := elegirPrimero_aux mejor htrans hneg hirr
      t r x h
    refine ⟨?_, ?_⟩
    · rcases hmem with hm | hm
      · simp [hm]
      · exact List.mem_cons_of_mem _ hm
    · intro p hp
      rcases List.mem_cons.mp hp with hpr | hpt
      · rw [hpr]; exact hrx
      · exact hall p hpt

/-- `first()` on a nonempty queryset returns a row. -/
lemma elegirPrimero_ne_none (mejor : Reserva → Reserva → Bool) :
    ∀ (t : List Reserva) (b : Reserva),
      t.foldl (fun acc r =>
        match acc with
        | none => some r
        | some b => if mejor r b then some r else some b) (some b) ≠
        none := by
  intro t
  induction t with
  | nil => intro b h; cases h
  | cons r u ih =>
    intro b h
    rw [List.foldl_cons] at h
    rw [show (match some b with
        | none => some r
        | some b => if mejor r b then some r else some b) =
          if mejor r b then some r else some b from rfl] at h
    cases hrb : mejor r b with
    | true => rw [hrb, if_pos rfl] at h; exact ih r h
    | false =>
      rw [hrb] at h
      simp only [Bool.false_eq_true, if_false] at h
      exact ih b h

/-- `elegirPrimero` finds nothing only on the empty queryset. -/
lemma elegirPrimero_eq_none (mejor : Reserva → Reserva → Bool)
    (rs : List Reserva) (h : elegirPrimero mejor rs = none) : rs = [] := by
  cases rs with
  | nil => rfl
  | cons r t =>
    unfold elegirPrimero at h
    rw [List.foldl_cons] at h
    exact absurd h (elegirPrimero_ne_none mejor t r)

/-- The code-point comparison is irreflexive. -/
lemma prioridadLt_irrefl : ∀ l : List Char, prioridadLt l l = false := by
  intro l
  induction l with
  | nil => rfl
  | cons c cs ih =>
    unfold prioridadLt
    rw [if_neg (lt_irrefl _), if_neg (lt_irrefl _)]
    exact ih

/-- The code-point comparison is transitive. -/
lemma prioridadLt_trans : ∀ a b c : List Char,
    prioridadLt a b = true → prioridadLt b c = true →
      prioridadLt a c = true := by
  intro a
  induction a with
  | nil =>
    intro b c hab hbc
    cases b with
    | nil => cases hab
    | cons y ys =>
      cases c with
      | nil => cases hbc
      | cons z zs => rfl
  | cons x xs ih =>
    intro b c hab hbc
    cases b with
    | nil => cases hab
    | cons y ys =>
      cases c with
      | nil => cases hbc
      | cons z zs =>
        unfold prioridadLt at hab hbc ⊢
        rcases Nat.lt_trichotomy x.toNat y.toNat with hxy | hxy | hxy
        · rcases Nat.lt_trichotomy y.toNat z.toNat with hyz | hyz | hyz
          · rw [if_pos (Nat.lt_trans hxy hyz)]
          · rw [if_pos (hyz ▸ hxy)]
          · rw [if_neg (by omega), if_pos hyz] at hbc
            cases hbc
        · rw [if_neg (by omega), if_neg (by omega)] at hab
          rcases Nat.lt_trichotomy y.toNat z.toNat with hyz | hyz | hyz
          · rw [if_pos (by omega)]
          · rw [if_neg (by omega), if_neg (by omega)] at hbc
            rw [if_neg (by omega), if_neg (by omega)]
            exact ih ys zs hab hbc
          · rw [if_neg (by omega), if_pos hyz] at hbc
            cases hbc
        · rw [if_neg (by omega), if_pos hxy] at hab
          cases hab

/-- The code-point comparison is negatively transitive. -/
lemma prioridadLt_neg_trans : ∀ a b c : List Char,
    prioridadLt a b = false → prioridadLt b c = false →
      prioridadLt a c = false := by
  intro a
  induction a with
  | nil =>
    intro b c hab hbc
    cases b with
    | nil =>
      cases c with
      | nil => rfl
      | cons z zs => cases hbc
    | cons y ys => cases hab
  | cons x xs ih =>
    intro b c hab hbc
    cases c with
    | nil => rfl
    | cons z zs =>
      cases b with
      | nil => cases hbc
      | cons y ys =>
        unfold prioridadLt at hab hbc ⊢
        rcases Nat.lt_trichotomy x.toNat y.toNat with hxy | hxy | hxy
        · rw [if_pos hxy] at hab
          cases hab
        · rw [if_neg (by omega), if_neg (by omega)] at hab
          rcases Nat.lt_trichotomy y.toNat z.toNat with hyz | hyz | hyz
          · rw [if_pos (by omega)] at hbc
            cases hbc
          · rw [if_neg (by omega), if_neg (by omega)] at hbc
            rw [if_neg (by omega), if_neg (by omega)]
            exact ih ys zs hab hbc
          · rw [if_neg (by omega), if_pos (by omega)]
        · rcases Nat.lt_trichotomy y.toNat z.toNat with hyz | hyz | hyz
          · rw [if_pos hyz] at hbc
            cases hbc
          · rw [if_neg (by omega), if_pos (by omega)]
          · rw [if_neg (by omega), if_pos (by omega)]

/-- The lexicographic key order is irreflexive. -/
lemma claveLt_irrefl (a : Int × String) : ¬ claveLt a a := by
  unfold claveLt
  rw [prioridadLt_irrefl]
  simp

/-- The lexicographic key order is transitive. -/
lemma claveLt_trans {a b c : Int × String}
    (hab : claveLt a b) (hbc : claveLt b c) : claveLt a c := by
  rcases hab with h1 | ⟨h1, h1s⟩ <;> rcases hbc with h2 | ⟨h2, h2s⟩
  · exact Or.inl (lt_trans h1 h2)
  · exact Or.inl (h2 ▸ h1)
  · exact Or.inl (h1 ▸ h2)
  · exact Or.inr ⟨h1.trans h2, prioridadLt_trans _ _ _ h1s h2s⟩

/-- The lexicographic key order is negatively transitive. -/
lemma claveLt_neg_trans {a b c : Int × String}
    (hab : ¬ claveLt a b) (hbc : ¬ claveLt b c) : ¬ claveLt a c := by
  unfold claveLt at hab hbc ⊢
  push_neg at hab hbc
  obtain ⟨hab1, hab2⟩ := hab
  obtain ⟨hbc1, hbc2⟩ := hbc
  intro hac
  rcases hac with h | ⟨h, hs⟩
  · omega
  · have hb1 : a.1 = b.1 := by omega
    have hb2 : b.1 = c.1 := by omega
    have hpab : prioridadLt a.2.data b.2.data = false :=
      Bool.eq_false_iff.mpr (hab2 hb1)
    have hpbc : prioridadLt b.2.data c.2.data = false :=
      Bool.eq_false_iff.mpr (hbc2 hb2)
    have := prioridadLt_neg_trans _ _ _ hpab hpbc
    rw [hs] at this
    cases this

/-- The fold's starting value is below the fold of `max`. -/
lemma le_foldl_max : ∀ (l : List Int) (a : Int), a ≤ l.foldl max a := by
  intro l
  induction l with
  | nil => intro a; exact le_refl a
  | cons x t ih =>
    intro a
    rw [List.foldl_cons]
    exact le_trans (le_max_left a x) (ih (max a x))

/-- Every listed value is below the fold of `max`. -/
lemma mem_le_foldl_max : ∀ (l : List Int) (a x : Int), x ∈ l →
    x ≤ l.foldl max a := by
  intro l
  induction l with
  | nil => intro a x hx; cases hx
  | cons y t ih =>
    intro a x hx
    rw [List.foldl_cons]
    rcases List.mem_cons.mp hx with hxy | hxt
    · rw [hxy]
      exact le_trans (le_max_right a y) (le_foldl_max t (max a y))
    · exact ih (max a y) x hxt

/-- Every reservation of the resource is at or below `ultimoTs`. -/
lemma ultimoTs_cota {s : Sistema} {rid : Nat} {r : Reserva}
    (hr : r ∈ reservasDe s rid) : r.reloj_lamport ≤ ultimoTs s rid := by
  unfold ultimoTs
  cases hl : (reservasDe s rid).map (fun x => x.reloj_lamport) with
  | nil =>
    have hmem : r.reloj_lamport ∈
        (reservasDe s rid).map (fun x => x.reloj_lamport) :=
      List.mem_map.mpr ⟨r, hr, rfl⟩
    rw [hl] at hmem
    cases hmem
  | cons t ts =>
    have hmem : r.reloj_lamport ∈
        (reservasDe s rid).map (fun x => x.reloj_lamport) :=
      List.mem_map.mpr ⟨r, hr, rfl⟩
    rw [hl] at hmem
    rcases List.mem_cons.mp hmem with hx | hx
    · exact hx ▸ le_foldl_max ts t
    · exact mem_le_foldl_max ts t _ hx

/-- What the promotion query returns: a queued row of the resource that no
other queued row sorts strictly before under `(reloj_lamport,
prioridad_id)`. -/
lemma primeroMenor_spec {rs : List Reserva} {x : Reserva}
    (h : primeroMenor rs = some x) :
    x ∈ rs ∧ ∀ r ∈ rs, ¬ claveLt (clave r) (clave x) := by
  obtain ⟨hmem, hall⟩ := elegirPrimero_spec _
    (fun a b c hab hbc => by
      rw [decide_eq_true_iff] at hab hbc ⊢
      exact claveLt_trans hab hbc)
    (fun a b c hab hbc => by
      rw [decide_eq_false_iff_not] at hab hbc ⊢
      exact claveLt_neg_trans hab hbc)
    (fun a => by
      rw [decide_eq_false_iff_not]
      exact claveLt_irrefl _)
    rs x h
  refine ⟨hmem, fun r hr => ?_⟩
  have hfr := hall r hr
  rwa [decide_eq_false_iff_not] at hfr

/-- The promotion query is empty only when no row is queued. -/
lemma primeroMenor_none {rs : List Reserva}
    (h : primeroMenor rs = none) : rs = [] :=
  elegirPrimero_eq_none _ rs h

/-- What the release lookup returns: a stored ACTIVE row of that resource
and client. -/
lemma activaDelCliente_spec {s : Sistema} {rid cid : Nat} {a : Reserva}
    (h : activaDelCliente s rid cid = some a) :
    a ∈ s.reservas ∧ a.recurso_id = rid ∧ a.cliente_id = cid ∧
      a.estado = EstadoSolicitud.ACTIVA := by
  unfold activaDelCliente ultimaCreada at h
  obtain ⟨hmem, -⟩ := elegirPrimero_spec _
    (fun a b c hab hbc => by
      rw [decide_eq_true_iff] at hab hbc ⊢
      exact lt_trans hbc hab)
    (fun a b c hab hbc => by
      rw [decide_eq_false_iff_not, Nat.not_lt] at hab hbc ⊢
      exact le_trans hab hbc)
    (fun a => by
      rw [decide_eq_false_iff_not]
      exact lt_irrefl _)
    _ a h
  rw [List.mem_filter, decide_eq_true_iff] at hmem
  exact ⟨hmem.1, hmem.2.1, hmem.2.2.1, hmem.2.2.2⟩

/-- When the client holds nothing ACTIVE on the resource, the release
lookup finds nothing. -/
lemma activaDelCliente_none {s : Sistema} {rid cid : Nat}
    (h : ∀ x ∈ s.reservas, ¬ (x.recurso_id = rid ∧ x.cliente_id = cid ∧
      x.estado = EstadoSolicitud.ACTIVA)) :
    activaDelCliente s rid cid = none := by
  unfold activaDelCliente
  rw [List.filter_eq_nil_iff.mpr (fun x hx => by
    rw [decide_eq_true_iff]  -- reduce the Bool coercion to the proposition
    exact h x hx)]
  rfl

/-- Finalizing the released ACTIVE row does not alter the queued rows, so
the promotion query ranges over exactly the queued rows of the old state. -/
lemma colaTrasLiberar_eq {s : Sistema} {rid : Nat} {a : Reserva}
    (hmem : a ∈ s.reservas)
    (hnodup : (s.reservas.map (fun x => x.id)).Nodup)
    (hact : a.estado = EstadoSolicitud.ACTIVA) :
    colaTrasLiberar s rid a = enColaDe s rid := by
  unfold colaTrasLiberar enColaDe
  apply filter_guardarReserva_igual
  · intro x hx hxid
    have hxa : x = a := id_inj hnodup hx hmem hxid
    rw [hxa]
    unfold esEnColaDe
    simp [hact]
  · unfold esEnColaDe reservaFinalizada
    simp

/-- Membership in the ACTIVE rows of a resource, spelled out. -/
lemma mem_activasDe {s : Sistema} {rid : Nat} {a : Reserva} :
    a ∈ activasDe s rid ↔
      a ∈ s.reservas ∧ a.recurso_id = rid ∧
        a.estado = EstadoSolicitud.ACTIVA := by
  unfold activasDe esActivaDe
  rw [List.mem_filter, decide_eq_true_iff]

/-- Membership in the QUEUED rows of a resource, spelled out. -/
lemma mem_enColaDe {s : Sistema} {rid : Nat} {q : Reserva} :
    q ∈ enColaDe s rid ↔
      q ∈ s.reservas ∧ q.recurso_id = rid ∧
        q.estado = EstadoSolicitud.EN_COLA := by
  unfold enColaDe esEnColaDe
  rw [List.mem_filter, decide_eq_true_iff]

/-- In an invariant state, a stored ACTIVE row forces its resource to be
`OCUPADO`, to have no other ACTIVE row and to point at it. -/
lemma ocupado_de_activa {s : Sistema} {rec : Recurso}
    (hinv : InvSistema s) (hmem : rec ∈ s.recursos) {a : Reserva}
    (ha : a ∈ activasDe s rec.id) :
    rec.estado_recurso = EstadoRecurso.OCUPADO ∧
      activasDe s rec.id = [a] ∧ rec.reserva_actual = some a.id := by
  obtain ⟨hInvRec, -, -⟩ := hinv
  by_cases hoc : rec.estado_recurso = EstadoRecurso.OCUPADO
  · obtain ⟨a0, h0, hra⟩ := (hInvRec rec hmem).1 hoc
    have haa : a = a0 := by
      rw [h0] at ha
      simpa using ha
    rw [haa]
    exact ⟨hoc, h0, hra⟩
  · obtain ⟨h0, -⟩ := (hInvRec rec hmem).2 hoc
    rw [h0] at ha
    cases ha

/-- A fresh deployment satisfies the invariant. -/
lemma inv_inicial {s : Sistema} (h : EstadoInicial s) : InvSistema s := by
  obtain ⟨hres, hrec⟩ := h
  refine ⟨?_, ?_, ?_⟩
  · intro rec hmem
    obtain ⟨hra, hst⟩ := hrec rec hmem
    constructor
    · intro hoc
      exact absurd hoc hst
    · intro _
      refine ⟨?_, hra⟩
      unfold activasDe
      rw [hres]
      rfl
  · intro r hr
    rw [hres] at hr
    cases hr
  · rw [hres]
    exact List.nodup_nil

/-- The ACTIVE rows after a request: the old ones plus the new row when it
was granted immediately. -/
lemma activasDe_trasSolicitud (s : Sistema) (rec : Recurso) (c : Cliente)
    (ts : Int) (rid2 : Nat) :
    activasDe (sistemaTrasSolicitud s rec c ts) rid2 =
      activasDe s rid2 ++
        List.filter (esActivaDe rid2) [reservaNueva s rec c ts] := by
  unfold activasDe sistemaTrasSolicitud
  exact List.filter_append _ _

/-- A successful request preserves the invariant. -/
lemma inv_solicitar {s : Sistema} {rid : Nat} {c : Cliente} {ts : Int}
    {r : Reserva} {s' : Sistema} (hinv : InvSistema s)
    (h : solicitar_reserva s rid c ts = .ok (r, s')) : InvSistema s' := by
  obtain ⟨rec, hrec, hr, hs'⟩ := solicitar_ok_forma h
  obtain ⟨hrecMem, hrecId⟩ := buscarRecurso_mem hrec
  obtain ⟨hInvRec, hFresh, hNodup⟩ := hinv
  subst hs'
  refine ⟨?_, ?_, ?_⟩
  · intro rec2 hmem2
    rcases mem_guardarRecurso hmem2 with hsaved | ⟨hold, hne⟩
    · subst hsaved
      by_cases hdv : rec.estado_recurso = EstadoRecurso.DISPONIBLE
      · have hact : esActivaDe (recursoTrasSolicitud s rec).id
            (reservaNueva s rec c ts) = true := by
          unfold esActivaDe reservaNueva recursoTrasSolicitud
          rw [if_pos hdv]
          simp [hdv]
        have hvacias : activasDe s (recursoTrasSolicitud s rec).id = [] := by
          have hid : (recursoTrasSolicitud s rec).id = rec.id := by
            unfold recursoTrasSolicitud
            rw [if_pos hdv]
          rw [hid]
          exact ((hInvRec rec hrecMem).2 (by rw [hdv]; intro hh; cases hh)).1
        constructor
        · intro _
          refine ⟨reservaNueva s rec c ts, ?_, ?_⟩
          · rw [activasDe_trasSolicitud, hvacias, List.filter_cons, hact]
            rfl
          · unfold recursoTrasSolicitud reservaNueva
            rw [if_pos hdv]
        · intro hno
          exact absurd (by unfold recursoTrasSolicitud; rw [if_pos hdv]) hno
      · have hcola : esActivaDe (recursoTrasSolicitud s rec).id
            (reservaNueva s rec c ts) = false := by
          unfold esActivaDe reservaNueva
          simp [hdv]
        have hrec2 : recursoTrasSolicitud s rec = rec := by
          unfold recursoTrasSolicitud
          rw [if_neg hdv]
        rw [hrec2]
        have hmismo : activasDe (sistemaTrasSolicitud s rec c ts) rec.id =
            activasDe s rec.id := by
          rw [activasDe_trasSolicitud, List.filter_cons]
          rw [show esActivaDe rec.id (reservaNueva s rec c ts) = false by
            unfold esActivaDe reservaNueva
            simp [hdv]]
          simp
        rw [hmismo]
        exact hInvRec rec hrecMem
    · have hne' : rec2.id ≠ rec.id := by
        intro hcontra
        apply hne
        rw [hcontra]
        unfold recursoTrasSolicitud
        by_cases hdv : rec.estado_recurso = EstadoRecurso.DISPONIBLE
        · rw [if_pos hdv]
        · rw [if_neg hdv]
      have hmismo : activasDe (sistemaTrasSolicitud s rec c ts) rec2.id =
          activasDe s rec2.id := by
        rw [activasDe_trasSolicitud, List.filter_cons]
        rw [show esActivaDe rec2.id (reservaNueva s rec c ts) = false by
          unfold esActivaDe reservaNueva
          simp
          intro hcontra
          exact absurd hcontra.symm hne']
        simp
      rw [hmismo]
      exact hInvRec rec2 hold
  · intro x hx
    rw [show (sistemaTrasSolicitud s rec c ts).reservas =
        s.reservas ++ [reservaNueva s rec c ts] from rfl] at hx
    rw [show (sistemaTrasSolicitud s rec c ts).next_id =
        s.next_id + 1 from rfl]
    rcases List.mem_append.mp hx with hxm | hxm
    · exact lt_trans (hFresh x hxm) (Nat.lt_succ_self _)
    · rw [show x = reservaNueva s rec c ts by simpa using hxm]
      exact Nat.lt_succ_self _
  · rw [show (sistemaTrasSolicitud s rec c ts).reservas =
        s.reservas ++ [reservaNueva s rec c ts] from rfl]
    rw [List.map_append, List.nodup_append]
    refine ⟨hNodup, List.nodup_singleton _, ?_⟩
    intro x hx
    rcases List.mem_map.mp hx with ⟨y, hy, hxy⟩
    rw [show List.map (fun x => x.id) [reservaNueva s rec c ts] =
        [s.next_id] from rfl]
    intro hx2
    rw [show x = s.next_id by simpa using hx2] at hxy
    exact absurd (hxy ▸ hFresh y hy) (lt_irrefl _)

/-- A successful release preserves the invariant. -/
lemma inv_liberar {s : Sistema} {rid : Nat} {c : Cliente}
    {res : Option Reserva} {s' : Sistema} (hinv : InvSistema s)
    (h : liberar_reserva s rid c = .ok (res, s')) : InvSistema s' := by
  obtain ⟨rec, hrec, hcases⟩ := liberar_ok_forma h
  obtain ⟨hrecMem, hrecId⟩ := buscarRecurso_mem hrec
  rcases hcases with ⟨-, -, hs⟩ | ⟨a, hact, -, hcases2⟩
  · rw [hs]
    exact hinv
  obtain ⟨haMem, haRec, haCli, haAct⟩ := activaDelCliente_spec hact
  obtain ⟨hInvRec, hFresh, hNodup⟩ := hinv
  have haInAct : a ∈ activasDe s rec.id :=
    mem_activasDe.mpr ⟨haMem, haRec, haAct⟩
  obtain ⟨hOc, hActEq, hRA⟩ :=
    ocupado_de_activa ⟨hInvRec, hFresh, hNodup⟩ hrecMem haInAct
  have hvacio : (guardarReserva s.reservas
      (reservaFinalizada s a)).filter (esActivaDe rec.id) = [] := by
    apply filter_guardarReserva_quita
    · intro x hx hpx
      have hxa : x ∈ activasDe s rec.id := by
        unfold activasDe
        exact List.mem_filter.mpr ⟨hx, hpx⟩
      rw [hActEq] at hxa
      rw [show x = a by simpa using hxa]
      exact rfl
    · unfold esActivaDe reservaFinalizada
      simp
  have hotros : ∀ rid2, rid2 ≠ rec.id →
      (guardarReserva s.reservas
        (reservaFinalizada s a)).filter (esActivaDe rid2) =
        activasDe s rid2 := by
    intro rid2 hne
    apply filter_guardarReserva_igual
    · intro x hx hxid
      have hxa : x = a := id_inj hNodup hx haMem hxid
      rw [hxa]
      unfold esActivaDe
      rw [decide_eq_false_iff_not]
      intro hcontra
      exact (Ne.symm hne) (haRec.symm.trans hcontra.1)
    · unfold esActivaDe reservaFinalizada
      simp
  have hFresh1 : ∀ x ∈ guardarReserva s.reservas (reservaFinalizada s a),
      x.id < s.next_id := by
    intro x hx
    rcases mem_guardarReserva hx with hxf | ⟨hxm, -⟩
    · rw [hxf]
      exact hFresh a haMem
    · exact hFresh x hxm
  have hNodup1 : ((guardarReserva s.reservas
      (reservaFinalizada s a)).map (fun x => x.id)).Nodup := by
    rw [map_id_guardarReserva]
    exact hNodup
  rcases hcases2 with ⟨hsig, hs⟩ | ⟨q, hsig, hs⟩
  · -- no queued row: the resource ends AVAILABLE with no holder
    subst hs
    refine ⟨?_, ?_, ?_⟩
    · intro rec2 hmem2
      rcases mem_guardarRecurso hmem2 with hsaved | ⟨hold, hne⟩
      · subst hsaved
        constructor
        · intro hoc
          cases hoc
        · intro _
          exact ⟨hvacio, rfl⟩
      · unfold activasDe
        rw [show (sistemaLiberadoSin s rec a).reservas =
            guardarReserva s.reservas (reservaFinalizada s a) from rfl]
        rw [show (guardarReserva s.reservas
            (reservaFinalizada s a)).filter (esActivaDe rec2.id) =
            activasDe s rec2.id from hotros rec2.id hne]
        exact hInvRec rec2 hold
    · exact hFresh1
    · exact hNodup1
  · -- a queued row is promoted: the resource ends BUSY pointing at it
    have hColaEq : colaTrasLiberar s rec.id a = enColaDe s rec.id :=
      colaTrasLiberar_eq haMem hNodup haAct
    obtain ⟨hqIn, -⟩ := primeroMenor_spec hsig
    rw [hColaEq] at hqIn
    obtain ⟨hqMem, hqRec, hqCola⟩ := mem_enColaDe.mp hqIn
    have hqa : q.id ≠ a.id := by
      intro hcontra
      have hqaEq : q = a := id_inj hNodup hqMem haMem hcontra
      rw [hqaEq, haAct] at hqCola
      cases hqCola
    have hqInRs1 : q ∈ guardarReserva s.reservas (reservaFinalizada s a) :=
      List.mem_map.mpr ⟨q, hqMem, by
        rw [show (reservaFinalizada s a).id = a.id from rfl, if_neg hqa]⟩
    have hpone : (guardarReserva (guardarReserva s.reservas
        (reservaFinalizada s a)) (reservaPromovida s q)).filter
          (esActivaDe rec.id) = [reservaPromovida s q] := by
      apply filter_guardarReserva_pone _ q _ _ hqInRs1 hNodup1
      · exact fun x hx => Bool.eq_false_iff.mpr
          (List.filter_eq_nil_iff.mp hvacio x hx)
      · rfl
      · unfold esActivaDe reservaPromovida
        simp [hqRec]
    have hotros2 : ∀ rid2, rid2 ≠ rec.id →
        (guardarReserva (guardarReserva s.reservas
          (reservaFinalizada s a)) (reservaPromovida s q)).filter
            (esActivaDe rid2) = activasDe s rid2 := by
      intro rid2 hne
      have hpaso : (guardarReserva (guardarReserva s.reservas
          (reservaFinalizada s a)) (reservaPromovida s q)).filter
            (esActivaDe rid2) =
          (guardarReserva s.reservas (reservaFinalizada s a)).filter
            (esActivaDe rid2) := by
        apply filter_guardarReserva_igual
        · intro x hx hxid
          rcases mem_guardarReserva hx with hxf | ⟨hxm, -⟩
          · exfalso
            apply hqa
            have h1 : x.id = a.id := by rw [hxf]; exact rfl
            have h2 : x.id = q.id := hxid
            exact h2.symm.trans h1
          · have hxq : x = q := id_inj hNodup hxm hqMem hxid
            rw [hxq]
            unfold esActivaDe
            rw [decide_eq_false_iff_not]
            intro hcontra
            exact (Ne.symm hne) (hqRec.symm.trans hcontra.1)
        · unfold esActivaDe
          rw [decide_eq_false_iff_not]
          intro hcontra
          exact (Ne.symm hne) (hqRec.symm.trans hcontra.1)
      rw [hpaso, hotros rid2 hne]
    subst hs
    refine ⟨?_, ?_, ?_⟩
    · intro rec2 hmem2
      rcases mem_guardarRecurso hmem2 with hsaved | ⟨hold, hne⟩
      · subst hsaved
        constructor
        · intro _
          exact ⟨reservaPromovida s q, hpone, rfl⟩
        · intro hno
          exact absurd rfl hno
      · unfold activasDe
        rw [show (sistemaLiberadoCon s rec a q).reservas =
            guardarReserva (guardarReserva s.reservas
              (reservaFinalizada s a)) (reservaPromovida s q) from rfl]
        rw [hotros2 rec2.id hne]
        exact hInvRec rec2 hold
    · intro x hx
      rcases mem_guardarReserva hx with hxp | ⟨hxm, -⟩
      · rw [hxp]
        exact hFresh q hqMem
      · exact hFresh1 x hxm
    · rw [show (sistemaLiberadoCon s rec a q).reservas =
          guardarReserva (guardarReserva s.reservas
            (reservaFinalizada s a)) (reservaPromovida s q) from rfl]
      rw [map_id_guardarReserva]
      exact hNodup1

/-- Every reachable state satisfies the invariant. -/
lemma inv_alcanzable {s : Sistema} (h : Alcanzable s) : InvSistema s := by
  induction h with
  | inicial s h0 => exact inv_inicial h0
  | solicitar s s' rid c ts r hs hstep ih => exact inv_solicitar ih hstep
  | liberar s s' rid c res hs hstep ih => exact inv_liberar ih hstep

/-- Claim C1: in every state reachable by any sequence of Request and
Release operations from an initial state with no reservations, every
resource has at most one ACTIVE reservation; the resource is `OCUPADO` iff
exactly one ACTIVE reservation exists and `reserva_actual` points to it,
and `DISPONIBLE` implies `reserva_actual` is none. -/
theorem c1_exclusion_mutua {s : Sistema} (h : Alcanzable s) :
    ∀ rec ∈ s.recursos,
      (activasDe s rec.id).length ≤ 1 ∧
      (rec.estado_recurso = EstadoRecurso.OCUPADO ↔
        ∃ a, activasDe s rec.id = [a] ∧ rec.reserva_actual = some a.id) ∧
      (rec.estado_recurso = EstadoRecurso.DISPONIBLE →
        rec.reserva_actual = none) := by
  obtain ⟨hInvRec, -, -⟩ := inv_alcanzable h
  intro rec hmem
  obtain ⟨h1, h2⟩ := hInvRec rec hmem
  by_cases hoc : rec.estado_recurso = EstadoRecurso.OCUPADO
  · obtain ⟨a, ha, hra⟩ := h1 hoc
    refine ⟨by rw [ha]; exact le_refl 1,
      ⟨fun _ => ⟨a, ha, hra⟩, fun _ => hoc⟩, ?_⟩
    intro hs
    cases hoc.symm.trans hs
  · obtain ⟨ha, hra⟩ := h2 hoc
    refine ⟨by rw [ha]; exact Nat.zero_le 1, ?_, fun _ => hra⟩
    constructor
    · intro hcontra
      exact absurd hcontra hoc
    · intro hex
      obtain ⟨a, haa, -⟩ := hex
      rw [ha] at haa
      cases haa

/-- Claim C3: the Lamport stamp of every created request equals
`max(client_ts, highest stamp of the resource, baseline 0) + 1`, hence is
strictly above every previously assigned stamp of that resource. -/
theorem c3_reloj_lamport {s : Sistema} {rid : Nat} {c : Cliente} {ts : Int}
    {r : Reserva} {s' : Sistema}
    (h : solicitar_reserva s rid c ts = .ok (r, s')) :
    r.reloj_lamport = max ts (ultimoTs s rid) + 1 ∧
      ∀ prev ∈ reservasDe s rid, prev.reloj_lamport < r.reloj_lamport := by
  obtain ⟨rec, hrec, hr, -⟩ := solicitar_ok_forma h
  obtain ⟨-, hrecId⟩ := buscarRecurso_mem hrec
  subst hr
  constructor
  · rw [show (reservaNueva s rec c ts).reloj_lamport =
      max ts (ultimoTs s rec.id) + 1 from rfl, hrecId]
  · intro prev hprev
    rw [show (reservaNueva s rec c ts).reloj_lamport =
      max ts (ultimoTs s rec.id) + 1 from rfl, hrecId]
    have h1 : prev.reloj_lamport ≤ ultimoTs s rid := ultimoTs_cota hprev
    have h2 : ultimoTs s rid ≤ max ts (ultimoTs s rid) := le_max_right _ _
    omega

/-- Claim C4: a request on a `DISPONIBLE` resource is granted at once
(ACTIVE, `fecha_concesion` set, resource `OCUPADO` pointing at it);
otherwise the new reservation is queued; either way the created reservation
is the one appended and returned. -/
theorem c4_concesion_inmediata {s : Sistema} {rid : Nat} {c : Cliente}
    {ts : Int} {r : Reserva} {s' : Sistema} {rec : Recurso}
    (hrec : buscarRecurso s rid = some rec)
    (h : solicitar_reserva s rid c ts = .ok (r, s')) :
    (rec.estado_recurso = EstadoRecurso.DISPONIBLE →
      r.estado = EstadoSolicitud.ACTIVA ∧ r.fecha_concesion = some s.now ∧
      ∃ rec', buscarRecurso s' rid = some rec' ∧
        rec'.estado_recurso = EstadoRecurso.OCUPADO ∧
        rec'.reserva_actual = some r.id) ∧
    (rec.estado_recurso ≠ EstadoRecurso.DISPONIBLE →
      r.estado = EstadoSolicitud.EN_COLA ∧ r.fecha_concesion = none) ∧
    s'.reservas = s.reservas ++ [r] := by
  obtain ⟨rec0, hrec0, hr, hs⟩ := solicitar_ok_forma h
  rw [hrec] at hrec0
  injection hrec0 with hrec0
  subst hrec0
  refine ⟨?_, ?_, ?_⟩
  · intro hdv
    refine ⟨by rw [hr]; unfold reservaNueva; simp [hdv],
      by rw [hr]; unfold reservaNueva; simp [hdv], ?_⟩
    refine ⟨recursoTrasSolicitud s rec, ?_, ?_, ?_⟩
    · rw [hs]
      unfold buscarRecurso sistemaTrasSolicitud
      rw [find_guardarRecurso]
      rw [show s.recursos.find? (fun x => decide (x.id = rid)) = some rec
        from hrec]
      simp [recursoTrasSolicitud, hdv]
    · unfold recursoTrasSolicitud
      rw [if_pos hdv]
    · unfold recursoTrasSolicitud
      rw [if_pos hdv, hr]
      rfl
  · intro hnd
    constructor
    · rw [hr]
      unfold reservaNueva
      simp [hnd]
    · rw [hr]
      unfold reservaNueva
      simp [hnd]
  · rw [hs, hr]
    rfl

/-- Claim C5: when the resource exists but the client holds no ACTIVE
reservation on it, release is an idempotent no-op: the service returns
`none` with the state untouched, and the endpoint answers
`liberada = false` with the state untouched, so a repeated call behaves
identically. -/
theorem c5_liberacion_sin_efecto {s : Sistema} {rid : Nat} {c : Cliente}
    {rec : Recurso} (hrec : buscarRecurso s rid = some rec)
    (hcli : buscarCliente s c.id = some c) (hcid : c.id ≠ 0)
    (hno : ∀ x ∈ s.reservas, ¬ (x.recurso_id = rid ∧ x.cliente_id = c.id ∧
      x.estado = EstadoSolicitud.ACTIVA)) :
    liberar_reserva s rid c = .ok (none, s) ∧
      liberar_reserva_api s rid (some c.id) = (RespLiberar.ok false, s) := by
  obtain ⟨-, hrecId⟩ := buscarRecurso_mem hrec
  have hact : activaDelCliente s rec.id c.id = none := by
    apply activaDelCliente_none
    intro x hx
    rw [hrecId]
    exact hno x hx
  have hserv : liberar_reserva s rid c = .ok (none, s) := by
    unfold liberar_reserva
    rw [hrec]
    show (match activaDelCliente s rec.id c.id with
      | none => Except.ok (none, s)
      | some reservaActiva =>
        match primeroMenor (colaTrasLiberar s rec.id reservaActiva) with
        | some enCola =>
          Except.ok (some (reservaFinalizada s reservaActiva),
            sistemaLiberadoCon s rec reservaActiva enCola)
        | none =>
          Except.ok (some (reservaFinalizada s reservaActiva),
            sistemaLiberadoSin s rec reservaActiva)) = Except.ok (none, s)
    rw [hact]
  refine ⟨hserv, ?_⟩
  simp [liberar_reserva_api, hcid, hcli, hserv]

/-- Claim C10: a request on a `FUERA_SERVICIO` resource succeeds, creates
a queued (not rejected) reservation, and leaves the resource row exactly
as it was. -/
theorem c10_fuera_servicio {s : Sistema} {rid : Nat} {c : Cliente}
    {ts : Int} {rec : Recurso}
    (hrec : buscarRecurso s rid = some rec)
    (hfs : rec.estado_recurso = EstadoRecurso.FUERA_SERVICIO) :
    ∃ r s', solicitar_reserva s rid c ts = .ok (r, s') ∧
      r.estado = EstadoSolicitud.EN_COLA ∧
      r.estado ≠ EstadoSolicitud.RECHAZADA ∧
      buscarRecurso s' rid = some rec := by
  have hnd : rec.estado_recurso ≠ EstadoRecurso.DISPONIBLE := by
    rw [hfs]
    intro hh
    cases hh
  refine ⟨reservaNueva s rec c ts, sistemaTrasSolicitud s rec c ts,
    ?_, ?_, ?_, ?_⟩
  · unfold solicitar_reserva
    rw [hrec]
  · unfold reservaNueva
    simp [hnd]
  · unfold reservaNueva
    simp [hnd]
  · unfold buscarRecurso sistemaTrasSolicitud
    rw [find_guardarRecurso]
    rw [show s.recursos.find? (fun x => decide (x.id = rid)) = some rec
      from hrec]
    have hrt : recursoTrasSolicitud s rec = rec := by
      unfold recursoTrasSolicitud
      rw [if_neg hnd]
    rw [hrt]
    simp

/-- Claim C2: when a release finishes an ACTIVE reservation and at least
one queued reservation exists for the resource, the promoted reservation is
a queued one minimal for the lexicographic `(reloj_lamport, prioridad_id)`
order — no other queued reservation sorts strictly before it — and the
resource ends `OCUPADO` pointing at it, with the promoted row stored
ACTIVE. -/
theorem c2_promocion_orden {s : Sistema} {rid : Nat} {c : Cliente}
    {rel : Reserva} {s' : Sistema}
    (hnodup : (s.reservas.map (fun r => r.id)).Nodup)
    (h : liberar_reserva s rid c = .ok (some rel, s'))
    (hq : enColaDe s rid ≠ []) :
    ∃ q ∈ enColaDe s rid,
      (∀ r ∈ enColaDe s rid, ¬ claveLt (clave r) (clave q)) ∧
      (∃ rec', buscarRecurso s' rid = some rec' ∧
        rec'.estado_recurso = EstadoRecurso.OCUPADO ∧
        rec'.reserva_actual = some q.id) ∧
      reservaPromovida s q ∈ s'.reservas := by
  obtain ⟨rec, hrec, hcases⟩ := liberar_ok_forma h
  obtain ⟨hrecMem, hrecId⟩ := buscarRecurso_mem hrec
  rcases hcases with ⟨-, hres, -⟩ | ⟨a, hact, -, hcases2⟩
  · cases hres
  obtain ⟨haMem, haRec, haCli, haAct⟩ := activaDelCliente_spec hact
  have hColaEq : colaTrasLiberar s rec.id a = enColaDe s rec.id :=
    colaTrasLiberar_eq haMem hnodup haAct
  rcases hcases2 with ⟨hsig, -⟩ | ⟨q, hsig, hs⟩
  · exfalso
    apply hq
    have h0 := primeroMenor_none hsig
    rw [hColaEq, hrecId] at h0
    exact h0
  · obtain ⟨hqIn, hqMin⟩ := primeroMenor_spec hsig
    rw [hColaEq, hrecId] at hqIn
    have hqFacts := mem_enColaDe.mp hqIn
    obtain ⟨hqMem, hqRec, hqCola⟩ := hqFacts
    have hqa : q.id ≠ a.id := by
      intro hcontra
      have hqaEq : q = a := id_inj hnodup hqMem haMem hcontra
      rw [hqaEq, haAct] at hqCola
      cases hqCola
    subst hs
    refine ⟨q, hqIn, ?_, ?_, ?_⟩
    · intro r hr
      apply hqMin
      rw [hColaEq, hrecId]
      exact hr
    · refine ⟨{ rec with
        estado_recurso := EstadoRecurso.OCUPADO
        reserva_actual := some q.id }, ?_, rfl, rfl⟩
      unfold buscarRecurso
      rw [show (sistemaLiberadoCon s rec a q).recursos =
          guardarRecurso s.recursos
            { rec with
              estado_recurso := EstadoRecurso.OCUPADO
              reserva_actual := some q.id } from rfl]
      rw [find_guardarRecurso]
      rw [show s.recursos.find? (fun x => decide (x.id = rid)) = some rec
        from hrec]
      simp
    · rw [show (sistemaLiberadoCon s rec a q).reservas =
          guardarReserva (guardarReserva s.reservas
            (reservaFinalizada s a)) (reservaPromovida s q) from rfl]
      have hqInRs1 : q ∈ guardarReserva s.reservas (reservaFinalizada s a) :=
        List.mem_map.mpr ⟨q, hqMem, by
          rw [show (reservaFinalizada s a).id = a.id from rfl, if_neg hqa]⟩
      exact List.mem_map.mpr ⟨q, hqInRs1, by
        rw [show (reservaPromovida s q).id = q.id from rfl, if_pos rfl]⟩

/-- Claim C9 (amended): when a release promotes a queued reservation, the
LIBERACION event for the released reservation is appended strictly before
the CONCESION event for the promoted one — the reverse of the order the
claim states. -/
theorem c9_orden_eventos {s : Sistema} {rid : Nat} {c : Cliente}
    {rel : Reserva} {s' : Sistema}
    (hnodup : (s.reservas.map (fun r => r.id)).Nodup)
    (h : liberar_reserva s rid c = .ok (some rel, s'))
    (hq : enColaDe s rid ≠ []) :
    ∃ eLib eCon : Evento,
      s'.eventos = s.eventos ++ [eLib, eCon] ∧
      eLib.tipo_evento = TipoEvento.LIBERACION ∧
      eCon.tipo_evento = TipoEvento.CONCESION := by
  obtain ⟨rec, hrec, hcases⟩ := liberar_ok_forma h
  obtain ⟨hrecMem, hrecId⟩ := buscarRecurso_mem hrec
  rcases hcases with ⟨-, hres, -⟩ | ⟨a, hact, -, hcases2⟩
  · cases hres
  obtain ⟨haMem, haRec, haCli, haAct⟩ := activaDelCliente_spec hact
  have hColaEq : colaTrasLiberar s rec.id a = enColaDe s rec.id :=
    colaTrasLiberar_eq haMem hnodup haAct
  rcases hcases2 with ⟨hsig, -⟩ | ⟨q, hsig, hs⟩
  · exfalso
    apply hq
    have h0 := primeroMenor_none hsig
    rw [hColaEq, hrecId] at h0
    exact h0
  · subst hs
    exact ⟨_, _, rfl, rfl, rfl⟩

/-- Counterexample to claim C6 as stated: on a state whose resource table
has no row with id 7, the request endpoint answers the generic server
failure (the service's uncaught `Recurso.DoesNotExist`), not a not-found
or bad-request client error. -/
theorem c6_contraejemplo :
    (solicitar_reserva_api sistemaNuevo 7 (some 1) 0).1 =
      RespSolicitar.errorServidor ∧
    RespSolicitar.errorServidor ≠ RespSolicitar.notFoundCliente ∧
    RespSolicitar.errorServidor ≠ RespSolicitar.badRequest := by
  refine ⟨rfl, ?_, ?_⟩ <;> intro hcontra <;> cases hcontra

/-- Claim C6 (amended): an unknown client id is answered with the
not-found client error and no state change; an unknown resource id makes
the service raise `Recurso.DoesNotExist`, which no handler catches, so it
surfaces as a generic server failure — still with no state change. -/
theorem c6_no_encontrado {s : Sistema} {rid cid : Nat} {ts : Int}
    (hcid : cid ≠ 0) :
    (buscarCliente s cid = none →
      solicitar_reserva_api s rid (some cid) ts =
        (RespSolicitar.notFoundCliente, s)) ∧
    (∀ c, buscarCliente s cid = some c → buscarRecurso s rid = none →
      solicitar_reserva_api s rid (some cid) ts =
        (RespSolicitar.errorServidor, s)) := by
  constructor
  · intro hnone
    simp [solicitar_reserva_api, hcid, hnone]
  · intro c hc hr
    have hserv : solicitar_reserva s rid c ts = .error .noExiste := by
      unfold solicitar_reserva
      rw [hr]
    simp [solicitar_reserva_api, hcid, hc, hserv]

/-- Counterexample to claim C7 as stated: a request that would succeed
fails as a whole when notification delivery raises, because the
notification call sits inside the transaction and nothing catches its
exception. -/
theorem c7_contraejemplo :
    solicitar_reserva_canal Canal.falla sistemaNuevo 1 clienteA 0 =
      .error ExcepcionOp.fallaNotificacion ∧
    solicitar_reserva sistemaNuevo 1 clienteA 0 =
      .ok (reservaSolicitadaNueva, sistemaTrasSolicitudNueva) :=
  ⟨rfl, rfl⟩

/-- Claim C7 (amended): a missing transport (channel layer `None`) or a
working transport never changes the outcome of a successful request or
release; but when delivery raises, the whole operation fails and its state
changes are rolled back — except that a release which found nothing to
release returns before notifying and so still succeeds. -/
theorem c7_notificacion {s : Sistema} {rid : Nat} {c : Cliente} {ts : Int}
    {r : Reserva} {resL : Option Reserva} {s1 s2 : Sistema}
    (h1 : solicitar_reserva s rid c ts = .ok (r, s1))
    (h2 : liberar_reserva s rid c = .ok (resL, s2)) :
    solicitar_reserva_canal Canal.ninguno s rid c ts = .ok (r, s1) ∧
    solicitar_reserva_canal Canal.configurado s rid c ts = .ok (r, s1) ∧
    solicitar_reserva_canal Canal.falla s rid c ts =
      .error ExcepcionOp.fallaNotificacion ∧
    liberar_reserva_canal Canal.ninguno s rid c = .ok (resL, s2) ∧
    liberar_reserva_canal Canal.configurado s rid c = .ok (resL, s2) ∧
    (resL = none → liberar_reserva_canal Canal.falla s rid c =
      .ok (none, s2)) ∧
    (∀ rr, resL = some rr → liberar_reserva_canal Canal.falla s rid c =
      .error ExcepcionOp.fallaNotificacion) := by
  refine ⟨?_, ?_, ?_, ?_, ?_, ?_, ?_⟩
  · simp [solicitar_reserva_canal, h1, notificar_cambio_cola]
  · simp [solicitar_reserva_canal, h1, notificar_cambio_cola]
  · simp [solicitar_reserva_canal, h1, notificar_cambio_cola]
  · cases resL with
    | none => simp [liberar_reserva_canal, h2, notificar_cambio_cola]
    | some rr => simp [liberar_reserva_canal, h2, notificar_cambio_cola]
  · cases resL with
    | none => simp [liberar_reserva_canal, h2, notificar_cambio_cola]
    | some rr => simp [liberar_reserva_canal, h2, notificar_cambio_cola]
  · intro hres
    subst hres
    simp [liberar_reserva_canal, h2]
  · intro rr hres
    subst hres
    simp [liberar_reserva_canal, h2, notificar_cambio_cola]

/-- Counterexample to claim C8 as stated: in the source order of both
operations the `transaction.atomic` commit happens at function return,
after the notification call, never before it. -/
theorem c8_contraejemplo :
    ¬ (pasosSolicitar.indexOf Paso.confirmarTransaccion <
        pasosSolicitar.indexOf Paso.notificar) ∧
    ¬ (pasosLiberar.indexOf Paso.confirmarTransaccion <
        pasosLiberar.indexOf Paso.notificar) := by
  decide

/-- Claim C8 (amended): in both operations the notification call runs
inside the transaction — after the state mutations and event appends but
before the decorator's commit, hence while the row lock is still held. -/
theorem c8_notificar_en_transaccion :
    pasosSolicitar.indexOf Paso.mutarEstado <
      pasosSolicitar.indexOf Paso.notificar ∧
    pasosSolicitar.indexOf Paso.registrarEvento <
      pasosSolicitar.indexOf Paso.notificar ∧
    pasosSolicitar.indexOf Paso.notificar <
      pasosSolicitar.indexOf Paso.confirmarTransaccion ∧
    pasosLiberar.indexOf Paso.mutarEstado <
      pasosLiberar.indexOf Paso.notificar ∧
    pasosLiberar.indexOf Paso.registrarEvento <
      pasosLiberar.indexOf Paso.notificar ∧
    pasosLiberar.indexOf Paso.notificar <
      pasosLiberar.indexOf Paso.confirmarTransaccion := by
  decide


/-- Counterexample to claim C9 as stated: in the `sistemaCola` release the
event log receives LIBERACION at index 0 and CONCESION at index 1, so the
GRANTED event is not appended before the RELEASED one. -/
theorem c9_contraejemplo :
    sistemaColaLiberada.eventos.map (fun e => e.tipo_evento) =
      [TipoEvento.LIBERACION, TipoEvento.CONCESION] ∧
    ¬ ((sistemaColaLiberada.eventos.map (fun e => e.tipo_evento)).indexOf
          TipoEvento.CONCESION <
        (sistemaColaLiberada.eventos.map (fun e => e.tipo_evento)).indexOf
          TipoEvento.LIBERACION) := by
  decide

/-- Witness for C1 on the state reached by one granted request, at the now
busy resource row of id 1. -/
theorem c1_testigo :
    (activasDe sistemaTrasSolicitudNueva 1).length ≤ 1 ∧
    (EstadoRecurso.OCUPADO = EstadoRecurso.OCUPADO ↔
      ∃ a, activasDe sistemaTrasSolicitudNueva 1 = [a] ∧
        (some 1 : Option Nat) = some a.id) ∧
    (EstadoRecurso.OCUPADO = EstadoRecurso.DISPONIBLE →
      (some 1 : Option Nat) = none) :=
  c1_exclusion_mutua (Alcanzable.solicitar sistemaNuevo
    sistemaTrasSolicitudNueva 1 clienteA 0 reservaSolicitadaNueva
    (Alcanzable.inicial sistemaNuevo (by decide)) rfl)
    { id := 1
      codigo := "PRINTER1"
      estado_recurso := EstadoRecurso.OCUPADO
      reserva_actual := some 1 }
    (by decide)

/-- Witness for C2 on the spec's tie-break scenario. -/
theorem c2_testigo :
    ∃ q ∈ enColaDe sistemaCola 1,
      (∀ r ∈ enColaDe sistemaCola 1, ¬ claveLt (clave r) (clave q)) ∧
      (∃ rec', buscarRecurso sistemaColaLiberada 1 = some rec' ∧
        rec'.estado_recurso = EstadoRecurso.OCUPADO ∧
        rec'.reserva_actual = some q.id) ∧
      reservaPromovida sistemaCola q ∈ sistemaColaLiberada.reservas :=
  c2_promocion_orden (by decide)
    (show liberar_reserva sistemaCola 1 clienteA =
      .ok (some reservaLiberadaCola, sistemaColaLiberada) from rfl)
    (by decide)

/-- Witness for C3 on the first request of the fresh deployment. -/
theorem c3_testigo :
    reservaSolicitadaNueva.reloj_lamport =
      max 0 (ultimoTs sistemaNuevo 1) + 1 ∧
    ∀ prev ∈ reservasDe sistemaNuevo 1,
      prev.reloj_lamport < reservaSolicitadaNueva.reloj_lamport :=
  c3_reloj_lamport (show solicitar_reserva sistemaNuevo 1 clienteA 0 =
    .ok (reservaSolicitadaNueva, sistemaTrasSolicitudNueva) from rfl)

/-- Witness for C4 on the first request of the fresh deployment. -/
theorem c4_testigo :
    (impresora.estado_recurso = EstadoRecurso.DISPONIBLE →
      reservaSolicitadaNueva.estado = EstadoSolicitud.ACTIVA ∧
      reservaSolicitadaNueva.fecha_concesion = some sistemaNuevo.now ∧
      ∃ rec', buscarRecurso sistemaTrasSolicitudNueva 1 = some rec' ∧
        rec'.estado_recurso = EstadoRecurso.OCUPADO ∧
        rec'.reserva_actual = some reservaSolicitadaNueva.id) ∧
    (impresora.estado_recurso ≠ EstadoRecurso.DISPONIBLE →
      reservaSolicitadaNueva.estado = EstadoSolicitud.EN_COLA ∧
      reservaSolicitadaNueva.fecha_concesion = none) ∧
    sistemaTrasSolicitudNueva.reservas =
      sistemaNuevo.reservas ++ [reservaSolicitadaNueva] :=
  c4_concesion_inmediata
    (show buscarRecurso sistemaNuevo 1 = some impresora from rfl)
    (show solicitar_reserva sistemaNuevo 1 clienteA 0 =
      .ok (reservaSolicitadaNueva, sistemaTrasSolicitudNueva) from rfl)

/-- Witness for C5: node B releases resource 1 while holding nothing. -/
theorem c5_testigo :
    liberar_reserva sistemaNuevo 1 clienteB = .ok (none, sistemaNuevo) ∧
      liberar_reserva_api sistemaNuevo 1 (some clienteB.id) =
        (RespLiberar.ok false, sistemaNuevo) :=
  c5_liberacion_sin_efecto
    (show buscarRecurso sistemaNuevo 1 = some impresora from rfl)
    (by decide) (by decide) (by decide)

/-- Witness for the amended C6: unknown client 9 gets the not-found client
error; known client 1 with unknown resource 7 gets the server failure. -/
theorem c6_testigo :
    solicitar_reserva_api sistemaNuevo 7 (some 9) 0 =
      (RespSolicitar.notFoundCliente, sistemaNuevo) ∧
    solicitar_reserva_api sistemaNuevo 7 (some 1) 0 =
      (RespSolicitar.errorServidor, sistemaNuevo) :=
  ⟨(c6_no_encontrado (by decide)).1 (by decide),
   (c6_no_encontrado (by decide)).2 clienteA (by decide) (by decide)⟩

/-- Witness for the amended C7 on the fresh deployment. -/
theorem c7_testigo :
    solicitar_reserva_canal Canal.ninguno sistemaNuevo 1 clienteA 0 =
      .ok (reservaSolicitadaNueva, sistemaTrasSolicitudNueva) ∧
    solicitar_reserva_canal Canal.falla sistemaNuevo 1 clienteA 0 =
      .error ExcepcionOp.fallaNotificacion ∧
    liberar_reserva_canal Canal.ninguno sistemaNuevo 1 clienteA =
      .ok (none, sistemaNuevo) ∧
    liberar_reserva_canal Canal.falla sistemaNuevo 1 clienteA =
      .ok (none, sistemaNuevo) := by
  obtain ⟨h1, h2, h3, h4, h5, h6, h7⟩ := c7_notificacion
    (show solicitar_reserva sistemaNuevo 1 clienteA 0 =
      .ok (reservaSolicitadaNueva, sistemaTrasSolicitudNueva) from rfl)
    (show liberar_reserva sistemaNuevo 1 clienteA =
      .ok (none, sistemaNuevo) from rfl)
  exact ⟨h1, h3, h4, h6 rfl⟩

/-- Witness for the amended C9 on the spec's tie-break scenario. -/
theorem c9_testigo :
    ∃ eLib eCon : Evento,
      sistemaColaLiberada.eventos = sistemaCola.eventos ++ [eLib, eCon] ∧
      eLib.tipo_evento = TipoEvento.LIBERACION ∧
      eCon.tipo_evento = TipoEvento.CONCESION :=
  c9_orden_eventos (by decide)
    (show liberar_reserva sistemaCola 1 clienteA =
      .ok (some reservaLiberadaCola, sistemaColaLiberada) from rfl)
    (by decide)

/-- Witness for C10: a request on the out-of-service resource 2. -/
theorem c10_testigo :
    ∃ r s', solicitar_reserva sistemaNuevo 2 clienteA 7 = .ok (r, s') ∧
      r.estado = EstadoSolicitud.EN_COLA ∧
      r.estado ≠ EstadoSolicitud.RECHAZADA ∧
      buscarRecurso s' 2 = some taller :=
  c10_fuera_servicio
    (show buscarRecurso sistemaNuevo 2 = some taller from rfl) rfl
